import Mathlib

/-!
Verification of the Gaea control-plane ("gaea-cc") admin HTTP handlers,
a shallow embedding of `cmd/gaea-cc/server.go`.

The handlers in `server.go` are transport glue: they bind the request,
delegate to the `service` package, and fill in a `RetHeader` response.
Each handler is embedded as a pure function of its request-derived inputs
and of the delegated service's outcome (the `service` package is not part
of the embedded slice; where a claim depends on its behaviour, a
definition modelled from the spec stands in, and is marked as such).
Every handler value also carries a `Bool` recording whether the delegated
service call was reached, so that claims of the form "the service is
never invoked" are expressible.
-/

namespace Gaea

/-- `models.Namespace`. Modelled from the spec: a namespace is uniquely
identified by its non-empty `name`; the remaining configuration (backend
groups, sharding rules, users, thresholds) is abstracted as an opaque
payload, since only `name` and whole-object equality matter to the
embedded handlers. -/
structure Namespace where
  name : String
  payload : String
deriving DecidableEq, Repr

/-- `RetHeader` (server.go lines 41-44): the response header carried by
every reply, with `ret_code` and `ret_message`. -/
structure RetHeader where
  retCode : Int
  retMessage : String
deriving DecidableEq, Repr

/-- `QueryReq` (server.go): the JSON body of a QueryNamespaces request. -/
structure QueryReq where
  names : List String
deriving DecidableEq, Repr

/-- `QueryNamespaceResp` (server.go): header plus the matched namespaces. -/
structure QueryNamespaceResp where
  retHeader : RetHeader
  data : List Namespace
deriving DecidableEq, Repr

/-- `sqlFingerprintResp` (server.go): header plus the error-SQL and
slow-SQL fingerprint maps (Go maps embedded as association lists). -/
structure SqlFingerprintResp where
  retHeader : RetHeader
  errSQLs : List (String × String)
  slowSQLs : List (String × String)
deriving DecidableEq, Repr

/-- `proxyConfigFingerprintResp` (server.go): header plus the mapping
from proxy address to config fingerprint. -/
structure ProxyConfigFingerprintResp where
  retHeader : RetHeader
  data : List (String × String)
deriving DecidableEq, Repr

/-- Go's `unicode.IsSpace` on a single character: the White_Space
property (ASCII whitespace, NEL, NBSP and the Unicode space separators),
as used by `strings.TrimSpace`. -/
def goIsSpace (c : Char) : Bool :=
  let n := c.toNat
  n = 9 || n = 10 || n = 11 || n = 12 || n = 13 || n = 32 ||
  n = 0x85 || n = 0xA0 || n = 0x1680 || (0x2000 ≤ n && n ≤ 0x200A) ||
  n = 0x2028 || n = 0x2029 || n = 0x202F || n = 0x205F || n = 0x3000

/-- Go's `strings.TrimSpace`: drop leading and trailing whitespace. -/
def trimSpace (s : String) : String :=
  String.mk (((s.data.dropWhile goIsSpace).reverse.dropWhile goIsSpace).reverse)

/-- gin's `c.BindJSON(obj)` as seen by the handlers. `target` is the Go
pointer the caller passes (`none` models a nil pointer); `decoded` is
what the out-of-scope JSON deserializer would produce into a fresh
object of the target type. `encoding/json` refuses a nil pointer before
reading any input, returning `InvalidUnmarshalError` whose message is
"json: Unmarshal(nil <type>)"; otherwise the deserializer's outcome is
passed through. -/
def bindJSON {α : Type} (typeName : String) (target : Option Unit)
    (decoded : Except String α) : Except String α :=
  match target with
  | none => Except.error ("json: Unmarshal(nil " ++ typeName ++ ")")
  | some _ => decoded

/-- Handler `queryNamespace` (server.go lines 84-109). The header starts
as `(-1, "")`; `BindJSON` is called on the nil pointer `req`
(`var req *QueryReq`); on bind error the error's message is stored and
the empty reply returned; otherwise `service.QueryNamespace` (abstracted
as `svc`, returning Go-style `(data, err)`) is consulted: on error the
header is left `(-1, "")` (the message is only logged), on success the
header becomes `(0, "SUCC")`. The returned `Bool` records whether the
service call was reached. -/
def queryNamespace (decoded : Except String QueryReq)
    (svc : List String → List Namespace × Option String) :
    QueryNamespaceResp × Bool :=
  match bindJSON "*main.QueryReq" none decoded with
  | Except.error e => (⟨⟨-1, e⟩, []⟩, false)
  | Except.ok req =>
    let r := svc req.names
    match r.2 with
    | some _ => (⟨⟨-1, ""⟩, r.1⟩, true)
    | none => (⟨⟨0, "SUCC"⟩, r.1⟩, true)

/-- Handler `modifyNamespace` (server.go lines 111-134). `BindJSON` is
called on the nil pointer `namespace` (`var namespace *models.Namespace`);
on bind error the header is returned still `(-1, "")` (the message is
only logged, never stored); otherwise `service.ModifyNamespace`
(abstracted as `svc`, returning a Go-style error) is consulted: on error
the header is again returned `(-1, "")`, on success `(0, "SUCC")`. -/
def modifyNamespace (decoded : Except String Namespace)
    (svc : Namespace → Option String) : RetHeader × Bool :=
  match bindJSON "*models.Namespace" none decoded with
  | Except.error _ => (⟨-1, ""⟩, false)
  | Except.ok ns =>
    match svc ns with
    | some _ => (⟨-1, ""⟩, true)
    | none => (⟨0, "SUCC"⟩, true)

/-- Handler `delNamespace` (server.go lines 136-157). The `:name` path
parameter is trimmed; if empty the handler answers
`(-1, "input name is empty")` without touching the service; otherwise
`service.DelNamespace` (abstracted as `svc`) is consulted: on error the
header is `(-1, "delete namespace faild, " ++ err)` (the `fmt.Sprintf`
prefix of the source, typo included), on success `(0, "SUCC")`. -/
def delNamespace (nameParam : String) (svc : String → Option String) :
    RetHeader × Bool :=
  let name := trimSpace nameParam
  if name = "" then (⟨-1, "input name is empty"⟩, false)
  else
    match svc name with
    | some e => (⟨-1, "delete namespace faild, " ++ e⟩, true)
    | none => (⟨0, "SUCC"⟩, true)

/-- Handler `sqlFingerprint` (server.go lines 165-184). The `:name` path
parameter is trimmed; if empty the handler answers
`(-1, "input name is empty")` without touching the service; otherwise
`service.SQLFingerprint` (abstracted as `svc`, returning Go-style
`(slowSQLs, errSQLs, err)`; the multiple assignment stores the maps even
when `err` is non-nil) is consulted: on error the header carries the
error's message verbatim, on success `(0, "SUCC")`. -/
def sqlFingerprint (nameParam : String)
    (svc : String → List (String × String) × List (String × String) × Option String) :
    SqlFingerprintResp × Bool :=
  let name := trimSpace nameParam
  if name = "" then (⟨⟨-1, "input name is empty"⟩, [], []⟩, false)
  else
    let r := svc name
    match r.2.2 with
    | some e => (⟨⟨-1, e⟩, r.2.1, r.1⟩, true)
    | none => (⟨⟨0, "SUCC"⟩, r.2.1, r.1⟩, true)

/-- Handler `proxyConfigFingerprint` (server.go lines 191-204).
Unconditionally consults `service.ProxyConfigFingerprint` (abstracted as
its Go-style result `(data, err)`; the assignment stores `data` even
when `err` is non-nil): on error the header carries the error's message
verbatim, on success `(0, "SUCC")`. -/
def proxyConfigFingerprint (svcResult : List (String × String) × Option String) :
    ProxyConfigFingerprintResp × Bool :=
  match svcResult.2 with
  | some e => (⟨⟨-1, e⟩, svcResult.1⟩, true)
  | none => (⟨⟨0, "SUCC"⟩, svcResult.1⟩, true)

/-- An SQL fingerprint entry. Modelled from the spec: keyed by
`(namespace, fingerprint)`, holding a representative sample and a class
tag (slow or error). -/
structure FingerprintEntry where
  nsName : String
  fp : String
  sample : String
  isSlow : Bool
deriving DecidableEq, Repr

/-- The namespace store's state. Modelled from the spec: one record per
namespace keyed by name, plus the SQL fingerprint entries that cascade
on namespace deletion. -/
structure Store where
  namespaces : List Namespace
  entries : List FingerprintEntry
deriving DecidableEq, Repr

/-- Modelled from the spec: `service.DelNamespace` / the store's
`delete(name)` operation, absent from the embedded slice. It fails with
`NotFoundError` if no such namespace exists, leaving the store
unchanged; otherwise it removes the namespace and cascades to its
fingerprint entries. Returns the new store and a Go-style error. -/
def delNamespaceService (st : Store) (name : String) : Store × Option String :=
  if st.namespaces.any (fun ns => ns.name = name) then
    ({ namespaces := st.namespaces.filter (fun ns => ns.name ≠ name),
       entries := st.entries.filter (fun e => e.nsName ≠ name) }, none)
  else (st, some ("namespace not found: " ++ name))

/-- Modelled from the spec: `service.ModifyNamespace` / the store's
`upsert(ns)` operation, absent from the embedded slice. It fails with
`ValidationError` if the name is empty (store unchanged); otherwise it
atomically replaces or creates the stored object. -/
def upsertNamespaceService (st : Store) (ns : Namespace) : Store × Option String :=
  if ns.name = "" then (st, some "validation error: namespace name is empty")
  else ({ st with
          namespaces := ns :: st.namespaces.filter (fun m => m.name ≠ ns.name) }, none)

/-- Modelled from the spec: `service.QueryNamespace` / the store's
`list(names)` operation, absent from the embedded slice. An empty name
collection means "all"; unknown names are silently omitted. -/
def listNamespacesService (st : Store) (names : List String) : List Namespace :=
  if names.isEmpty then st.namespaces
  else st.namespaces.filter (fun ns => names.contains ns.name)

/-- The outcome of polling one proxy node for its config fingerprint. -/
inductive PollOutcome where
  | reachable (fp : String)
  | unreachable
deriving DecidableEq, Repr

/-- Modelled from the spec: `service.ProxyConfigFingerprint` / the
verifier's `verify()` operation, absent from the embedded slice. Given
the fleet's poll outcomes it returns the per-node mapping with an
explicit "unreachable" marker for nodes that timed out or errored, and
never an overall error: a single unreachable node must never fail the
whole verification. Result is Go-style `(data, err)`. -/
def verifyFleet (fleet : List (String × PollOutcome)) :
    List (String × String) × Option String :=
  (fleet.map (fun p => (p.1,
      match p.2 with
      | PollOutcome.reachable fp => fp
      | PollOutcome.unreachable => "unreachable")), none)

/-- The scanning mode of the SQL canonicalizer: in ordinary text, inside
a quoted literal (with its quote character), inside a numeric literal,
or inside a whitespace run. -/
inductive ScanMode where
  | normal
  | inQuote (q : Char)
  | inNumber
  | inSpace
deriving DecidableEq, Repr

/-- Modelled from the spec: the body of `SQLFingerprinter.fingerprint`,
absent from the embedded slice. One pass over the characters: a quoted
string literal is replaced by a single placeholder, a run of digits by a
single placeholder, a run of whitespace by a single space, and every
other character is lowercased. -/
def canonSQL : ScanMode → List Char → List Char
  | _, [] => []
  | ScanMode.inQuote q, c :: rest =>
    if c = q then canonSQL ScanMode.normal rest
    else canonSQL (ScanMode.inQuote q) rest
  | m, c :: rest =>
    if c.toNat = 39 || c.toNat = 34 then
      Char.ofNat 63 :: canonSQL (ScanMode.inQuote c) rest
    else if c.isDigit then
      match m with
      | ScanMode.inNumber => canonSQL ScanMode.inNumber rest
      | _ => Char.ofNat 63 :: canonSQL ScanMode.inNumber rest
    else if goIsSpace c then
      match m with
      | ScanMode.inSpace => canonSQL ScanMode.inSpace rest
      | _ => Char.ofNat 32 :: canonSQL ScanMode.inSpace rest
    else
      c.toLower :: canonSQL ScanMode.normal rest

/-- Modelled from the spec: `SQLFingerprinter.fingerprint(sql)`, absent
from the embedded slice. Canonicalizes raw SQL text: literals replaced
by placeholders, whitespace collapsed, text lowercased, trailing
statement terminators (and trailing whitespace) stripped. Total and
deterministic by construction. -/
def fingerprint (sql : String) : String :=
  String.mk (((canonSQL ScanMode.normal sql.data).reverse.dropWhile
    (fun c => c.toNat = 59 || c.toNat = 32)).reverse)

/-! ### Run equations for the handlers, shared by the theorems below. -/

/-- `queryNamespace` always takes the bind-error branch: the target
pointer is nil, so binding fails before the body is read. -/
theorem queryNamespace_run (d : Except String QueryReq)
    (svc : List String → List Namespace × Option String) :
    queryNamespace d svc =
      (⟨⟨-1, "json: Unmarshal(nil *main.QueryReq)"⟩, []⟩, false) := rfl

/-- `modifyNamespace` always takes the bind-error branch: the target
pointer is nil, so binding fails before the body is read. -/
theorem modifyNamespace_run (d : Except String Namespace)
    (svc : Namespace → Option String) :
    modifyNamespace d svc = (⟨-1, ""⟩, false) := rfl

/-- `delNamespace` on an all-whitespace name parameter. -/
theorem delNamespace_empty_name (nm : String) (svc : String → Option String)
    (h : trimSpace nm = "") :
    delNamespace nm svc = (⟨-1, "input name is empty"⟩, false) := by
  simp [delNamespace, h]

/-- `delNamespace` when the delegated deletion fails. -/
theorem delNamespace_svc_err (nm : String) (svc : String → Option String)
    (e : String) (h : trimSpace nm ≠ "") (he : svc (trimSpace nm) = some e) :
    delNamespace nm svc = (⟨-1, "delete namespace faild, " ++ e⟩, true) := by
  simp [delNamespace, h, he]

/-- `delNamespace` when the delegated deletion succeeds. -/
theorem delNamespace_svc_ok (nm : String) (svc : String → Option String)
    (h : trimSpace nm ≠ "") (he : svc (trimSpace nm) = none) :
    delNamespace nm svc = (⟨0, "SUCC"⟩, true) := by
  simp [delNamespace, h, he]

/-- `sqlFingerprint` on an all-whitespace name parameter. -/
theorem sqlFingerprint_empty_name (nm : String)
    (svc : String → List (String × String) × List (String × String) × Option String)
    (h : trimSpace nm = "") :
    sqlFingerprint nm svc = (⟨⟨-1, "input name is empty"⟩, [], []⟩, false) := by
  simp [sqlFingerprint, h]

/-- `sqlFingerprint` when the delegated query fails. -/
theorem sqlFingerprint_svc_err (nm : String)
    (svc : String → List (String × String) × List (String × String) × Option String)
    (e : String) (h : trimSpace nm ≠ "") (he : (svc (trimSpace nm)).2.2 = some e) :
    sqlFingerprint nm svc =
      (⟨⟨-1, e⟩, (svc (trimSpace nm)).2.1, (svc (trimSpace nm)).1⟩, true) := by
  simp [sqlFingerprint, h, he]

/-- `sqlFingerprint` when the delegated query succeeds. -/
theorem sqlFingerprint_svc_ok (nm : String)
    (svc : String → List (String × String) × List (String × String) × Option String)
    (h : trimSpace nm ≠ "") (he : (svc (trimSpace nm)).2.2 = none) :
    sqlFingerprint nm svc =
      (⟨⟨0, "SUCC"⟩, (svc (trimSpace nm)).2.1, (svc (trimSpace nm)).1⟩, true) := by
  simp [sqlFingerprint, h, he]

/-- `proxyConfigFingerprint` when the delegated verification fails. -/
theorem proxyConfigFingerprint_err (data : List (String × String)) (e : String) :
    proxyConfigFingerprint (data, some e) = (⟨⟨-1, e⟩, data⟩, true) := rfl

/-- `proxyConfigFingerprint` when the delegated verification succeeds. -/
theorem proxyConfigFingerprint_ok (data : List (String × String)) :
    proxyConfigFingerprint (data, none) = (⟨⟨0, "SUCC"⟩, data⟩, true) := rfl

/-- Appending to "delete namespace faild, " never yields the empty
string (the prefixed failure message is always non-empty). -/
theorem del_prefix_append_ne_empty (e : String) :
    ("delete namespace faild, " ++ e : String) ≠ "" := by
  intro h
  have h2 := congrArg String.length h
  rw [String.length_append] at h2
  have h3 : ("delete namespace faild, " : String).length = 24 := rfl
  have h4 : ("" : String).length = 0 := rfl
  omega

/-! ### Claims -/

/-- C1: evaluation of `queryNamespace` at a well-formed request. The
claim says the handler invokes the namespace query service and answers
`(0, "SUCC")` with the matching namespaces; in fact, because `BindJSON`
is handed the nil pointer `req`, binding fails on every request, the
service is never invoked, and the handler always answers `ret_code -1`
with the `encoding/json` nil-unmarshal message and empty data — here
shown at a body decoding to `names = []` against a service that would
return one namespace. -/
theorem queryNamespace_never_succeeds :
    queryNamespace (Except.ok ⟨[]⟩)
        (fun _ => ([⟨"shop", "cfg"⟩], none)) =
      (⟨⟨-1, "json: Unmarshal(nil *main.QueryReq)"⟩, []⟩, false) := rfl

/-- C2: the upsert/list round-trip holds of the store operations as
specified (second conjunct: upserting `⟨"shop", "cfg"⟩` into the empty
store and listing `{"shop"}` returns exactly that namespace), but the
`modifyNamespace` handler never reaches the upsert: `BindJSON` is handed
the nil pointer `namespace`, so binding fails on every request and the
handler answers `ret_code -1` without invoking the service (first
conjunct), breaking the round-trip at the API level. -/
theorem modifyNamespace_never_stores :
    modifyNamespace (Except.ok ⟨"shop", "cfg"⟩) (fun _ => none) = (⟨-1, ""⟩, false) ∧
    listNamespacesService
        (upsertNamespaceService ⟨[], []⟩ ⟨"shop", "cfg"⟩).1 ["shop"] =
      [⟨"shop", "cfg"⟩] := ⟨rfl, by decide⟩

/-- C3 counterexample: `modifyNamespace` answers a failure
(`ret_code -1`) whose `ret_message` is the empty string — not a
human-readable message — refuting the claim that every `ret_code -1`
response carries a non-empty message. -/
theorem modifyNamespace_failure_message_empty :
    (modifyNamespace (Except.ok ⟨"shop", "cfg"⟩) (fun _ => none)).1.retCode = -1 ∧
    (modifyNamespace (Except.ok ⟨"shop", "cfg"⟩) (fun _ => none)).1.retMessage = "" :=
  ⟨rfl, rfl⟩

/-- C3 amended: every handler except `modifyNamespace` accompanies a
`ret_code -1` response with a non-empty `ret_message` — for
`sqlFingerprint` and `proxyConfigFingerprint` provided the delegated
service's error message is itself non-empty; `modifyNamespace` always
leaves `ret_message` empty, and `queryNamespace`'s service-error branch
would also leave it empty but is unreachable. -/
theorem failure_messages_nonempty_amended
    (d : Except String QueryReq) (svcQ : List String → List Namespace × Option String)
    (nm : String) (svcD : String → Option String)
    (nm2 : String)
    (svcF : String → List (String × String) × List (String × String) × Option String)
    (pr : List (String × String) × Option String)
    (hF : ∀ e, (svcF (trimSpace nm2)).2.2 = some e → e ≠ "")
    (hP : ∀ e, pr.2 = some e → e ≠ "") :
    ((queryNamespace d svcQ).1.retHeader.retCode = -1 →
      (queryNamespace d svcQ).1.retHeader.retMessage ≠ "") ∧
    ((delNamespace nm svcD).1.retCode = -1 →
      (delNamespace nm svcD).1.retMessage ≠ "") ∧
    ((sqlFingerprint nm2 svcF).1.retHeader.retCode = -1 →
      (sqlFingerprint nm2 svcF).1.retHeader.retMessage ≠ "") ∧
    ((proxyConfigFingerprint pr).1.retHeader.retCode = -1 →
      (proxyConfigFingerprint pr).1.retHeader.retMessage ≠ "") := by
  refine ⟨?_, ?_, ?_, ?_⟩
  · intro _
    rw [queryNamespace_run]
    decide
  · intro _
    by_cases h : trimSpace nm = ""
    · rw [delNamespace_empty_name nm svcD h]
      decide
    · rcases he : svcD (trimSpace nm) with _ | e
      · rw [delNamespace_svc_ok nm svcD h he]
        decide
      · rw [delNamespace_svc_err nm svcD e h he]
        exact del_prefix_append_ne_empty e
  · intro hc
    by_cases h : trimSpace nm2 = ""
    · rw [sqlFingerprint_empty_name nm2 svcF h]
      decide
    · rcases he : (svcF (trimSpace nm2)).2.2 with _ | e
      · rw [sqlFingerprint_svc_ok nm2 svcF h he] at hc
        simp at hc
      · rw [sqlFingerprint_svc_err nm2 svcF e h he]
        exact hF e he
  · intro hc
    rcases pr with ⟨data, _ | e⟩
    · rw [proxyConfigFingerprint_ok data] at hc
      simp at hc
    · rw [proxyConfigFingerprint_err data e]
      exact hP e rfl

/-- C3 amended, witness: the amended statement instantiated at concrete
requests and services. -/
theorem failure_messages_nonempty_amended_witness :
    ((queryNamespace (Except.ok ⟨[]⟩) (fun _ => ([], none))).1.retHeader.retCode = -1 →
      (queryNamespace (Except.ok ⟨[]⟩) (fun _ => ([], none))).1.retHeader.retMessage ≠ "") ∧
    ((delNamespace "shop" (fun _ => some "boom")).1.retCode = -1 →
      (delNamespace "shop" (fun _ => some "boom")).1.retMessage ≠ "") ∧
    ((sqlFingerprint "shop" (fun _ => ([], [], some "down"))).1.retHeader.retCode = -1 →
      (sqlFingerprint "shop" (fun _ => ([], [], some "down"))).1.retHeader.retMessage ≠ "") ∧
    ((proxyConfigFingerprint ([], some "down")).1.retHeader.retCode = -1 →
      (proxyConfigFingerprint ([], some "down")).1.retHeader.retMessage ≠ "") :=
  failure_messages_nonempty_amended (Except.ok ⟨[]⟩) (fun _ => ([], none))
    "shop" (fun _ => some "boom") "shop" (fun _ => ([], [], some "down"))
    ([], some "down")
    (fun e he => by
      simp only [Option.some_inj] at he
      rw [← he]
      decide)
    (fun e he => by
      simp only [Option.some_inj] at he
      rw [← he]
      decide)

/-- C4 counterexample: `delNamespace` does not surface the delegated
service's error verbatim — with service error "boom" the response's
`ret_message` is "delete namespace faild, boom", not "boom". -/
theorem delNamespace_error_not_verbatim :
    (delNamespace "x" (fun _ => some "boom")).1.retMessage ≠ "boom" ∧
    (delNamespace "x" (fun _ => some "boom")).1.retMessage =
      "delete namespace faild, boom" := by
  constructor
  · decide
  · decide

/-- C4 amended: when the delegated service call fails, `sqlFingerprint`
and `proxyConfigFingerprint` surface the error's message verbatim;
`delNamespace` surfaces it prefixed with "delete namespace faild, ";
`queryNamespace` and `modifyNamespace` never surface a service error's
message (their nil-pointer binding fails first, so the service is never
reached, and `modifyNamespace`'s `ret_message` is always empty). -/
theorem error_message_propagation
    (nm nm2 e1 e2 e3 : String)
    (svcD : String → Option String)
    (svcF : String → List (String × String) × List (String × String) × Option String)
    (data : List (String × String))
    (d : Except String QueryReq) (svcQ : List String → List Namespace × Option String)
    (dm : Except String Namespace) (svcM : Namespace → Option String)
    (h1 : trimSpace nm ≠ "") (hD : svcD (trimSpace nm) = some e1)
    (h2 : trimSpace nm2 ≠ "") (hF : (svcF (trimSpace nm2)).2.2 = some e2) :
    (delNamespace nm svcD).1.retMessage = "delete namespace faild, " ++ e1 ∧
    (sqlFingerprint nm2 svcF).1.retHeader.retMessage = e2 ∧
    (proxyConfigFingerprint (data, some e3)).1.retHeader.retMessage = e3 ∧
    (queryNamespace d svcQ).2 = false ∧
    (modifyNamespace dm svcM).2 = false ∧
    (modifyNamespace dm svcM).1.retMessage = "" := by
  refine ⟨?_, ?_, rfl, rfl, rfl, rfl⟩
  · rw [delNamespace_svc_err nm svcD e1 h1 hD]
  · rw [sqlFingerprint_svc_err nm2 svcF e2 h2 hF]

/-- C4 amended, witness: the amended statement instantiated at concrete
names, services and errors. -/
theorem error_message_propagation_witness :
    (delNamespace "shop" (fun _ => some "boom")).1.retMessage =
      "delete namespace faild, " ++ "boom" ∧
    (sqlFingerprint "shop" (fun _ => ([], [], some "down"))).1.retHeader.retMessage =
      "down" ∧
    (proxyConfigFingerprint ([], some "lost")).1.retHeader.retMessage = "lost" ∧
    (queryNamespace (Except.ok ⟨[]⟩) (fun _ => ([], none))).2 = false ∧
    (modifyNamespace (Except.ok ⟨"shop", "cfg"⟩) (fun _ => none)).2 = false ∧
    (modifyNamespace (Except.ok ⟨"shop", "cfg"⟩) (fun _ => none)).1.retMessage = "" :=
  error_message_propagation "shop" "shop" "boom" "down" "lost"
    (fun _ => some "boom") (fun _ => ([], [], some "down")) []
    (Except.ok ⟨[]⟩) (fun _ => ([], none))
    (Except.ok ⟨"shop", "cfg"⟩) (fun _ => none)
    (by decide) rfl (by decide) rfl

/-- C5: the fleet verification is partial-failure tolerant: for every
fleet state it returns without an overall error (and the handler answers
`(0, "SUCC")`), the returned mapping covers every node, and each
unreachable node appears in it with the explicit "unreachable" marker —
a single unreachable node never fails the whole operation. -/
theorem verify_partial_failure_tolerant (fleet : List (String × PollOutcome)) :
    (verifyFleet fleet).2 = none ∧
    (proxyConfigFingerprint (verifyFleet fleet)).1.retHeader = ⟨0, "SUCC"⟩ ∧
    (verifyFleet fleet).1.length = fleet.length ∧
    (∀ a, (a, PollOutcome.unreachable) ∈ fleet →
      (a, "unreachable") ∈ (verifyFleet fleet).1) := by
  refine ⟨rfl, rfl, by simp [verifyFleet], ?_⟩
  intro a h
  exact List.mem_map_of_mem _ h

/-- C5, witness: a two-node fleet with one reachable node (`nodeA`,
fingerprint "abc123") and one unreachable node (`nodeB`). -/
theorem verify_partial_failure_tolerant_witness :
    (verifyFleet [("nodeA", PollOutcome.reachable "abc123"),
        ("nodeB", PollOutcome.unreachable)]).2 = none ∧
    (proxyConfigFingerprint (verifyFleet [("nodeA", PollOutcome.reachable "abc123"),
        ("nodeB", PollOutcome.unreachable)])).1.retHeader = ⟨0, "SUCC"⟩ ∧
    (verifyFleet [("nodeA", PollOutcome.reachable "abc123"),
        ("nodeB", PollOutcome.unreachable)]).1.length =
      ([("nodeA", PollOutcome.reachable "abc123"),
        ("nodeB", PollOutcome.unreachable)] : List (String × PollOutcome)).length ∧
    (∀ a, (a, PollOutcome.unreachable) ∈
        [("nodeA", PollOutcome.reachable "abc123"), ("nodeB", PollOutcome.unreachable)] →
      (a, "unreachable") ∈
        (verifyFleet [("nodeA", PollOutcome.reachable "abc123"),
          ("nodeB", PollOutcome.unreachable)]).1) :=
  verify_partial_failure_tolerant
    [("nodeA", PollOutcome.reachable "abc123"), ("nodeB", PollOutcome.unreachable)]

/-- C6: deleting a name that denotes no existing namespace fails with
the not-found error and leaves the store entirely unchanged (namespaces
and fingerprint entries alike); through the handler the response is
`ret_code -1` with the not-found message (behind the handler's
"delete namespace faild, " prefix). -/
theorem delete_nonexistent_notfound_unchanged
    (st : Store) (nameParam : String)
    (h1 : trimSpace nameParam ≠ "")
    (h2 : ∀ ns ∈ st.namespaces, ns.name ≠ trimSpace nameParam) :
    (delNamespaceService st (trimSpace nameParam)).1 = st ∧
    (delNamespaceService st (trimSpace nameParam)).2 =
      some ("namespace not found: " ++ trimSpace nameParam) ∧
    (delNamespace nameParam (fun n => (delNamespaceService st n).2)).1.retCode = -1 ∧
    (delNamespace nameParam (fun n => (delNamespaceService st n).2)).1.retMessage =
      "delete namespace faild, " ++ ("namespace not found: " ++ trimSpace nameParam) := by
  have hany : st.namespaces.any (fun ns => ns.name = trimSpace nameParam) = false := by
    rw [List.any_eq_false]
    intro ns hns
    simpa using h2 ns hns
  have hsvc : delNamespaceService st (trimSpace nameParam) =
      (st, some ("namespace not found: " ++ trimSpace nameParam)) := by
    simp [delNamespaceService, hany]
  have hbranch := delNamespace_svc_err nameParam (fun n => (delNamespaceService st n).2)
    ("namespace not found: " ++ trimSpace nameParam) h1 (congrArg Prod.snd hsvc)
  refine ⟨by rw [hsvc], by rw [hsvc], ?_, ?_⟩
  · rw [hbranch]
  · rw [hbranch]

/-- C6, witness: deleting the unknown name "ghost" from a store holding
the namespace "shop" and one of its fingerprint entries. -/
theorem delete_nonexistent_notfound_unchanged_witness :
    (delNamespaceService ⟨[⟨"shop", "cfg"⟩], [⟨"shop", "fp1", "select ?", true⟩]⟩
        (trimSpace "ghost")).1 =
      ⟨[⟨"shop", "cfg"⟩], [⟨"shop", "fp1", "select ?", true⟩]⟩ ∧
    (delNamespaceService ⟨[⟨"shop", "cfg"⟩], [⟨"shop", "fp1", "select ?", true⟩]⟩
        (trimSpace "ghost")).2 =
      some ("namespace not found: " ++ trimSpace "ghost") ∧
    (delNamespace "ghost" (fun n =>
      (delNamespaceService ⟨[⟨"shop", "cfg"⟩], [⟨"shop", "fp1", "select ?", true⟩]⟩
        n).2)).1.retCode = -1 ∧
    (delNamespace "ghost" (fun n =>
      (delNamespaceService ⟨[⟨"shop", "cfg"⟩], [⟨"shop", "fp1", "select ?", true⟩]⟩
        n).2)).1.retMessage =
      "delete namespace faild, " ++ ("namespace not found: " ++ trimSpace "ghost") :=
  delete_nonexistent_notfound_unchanged
    ⟨[⟨"shop", "cfg"⟩], [⟨"shop", "fp1", "select ?", true⟩]⟩ "ghost"
    (by decide) (by decide)

/-- C7: the SQL fingerprint function is deterministic and total: it is
defined on every input string (a total function, never an error), and
two invocations on byte-identical inputs produce byte-identical
outputs. -/
theorem fingerprint_deterministic_total (s t : String) (h : s = t) :
    fingerprint s = fingerprint t ∧ ∃ r : String, fingerprint s = r :=
  ⟨by rw [h], ⟨fingerprint s, rfl⟩⟩

/-- C7, witness: two byte-identical invocations on a concrete query. -/
theorem fingerprint_deterministic_total_witness :
    fingerprint "SELECT * FROM t WHERE id=1" = fingerprint "SELECT * FROM t WHERE id=1" ∧
    ∃ r : String, fingerprint "SELECT * FROM t WHERE id=1" = r :=
  fingerprint_deterministic_total "SELECT * FROM t WHERE id=1"
    "SELECT * FROM t WHERE id=1" rfl

/-- C8: `queryNamespace` and `modifyNamespace` hand `BindJSON` a nil
pointer, so for every request (whatever the body would decode to) the
binding step returns the nil-unmarshal error, both handlers take the
error branch answering `ret_code -1`, and the delegated services are
never invoked — in particular the `req.Names` access in the success
branch is never executed, so no nil dereference occurs. -/
theorem nil_bind_service_never_invoked
    (d1 : Except String QueryReq) (svc1 : List String → List Namespace × Option String)
    (d2 : Except String Namespace) (svc2 : Namespace → Option String) :
    bindJSON "*main.QueryReq" none d1 =
      Except.error "json: Unmarshal(nil *main.QueryReq)" ∧
    bindJSON "*models.Namespace" none d2 =
      Except.error "json: Unmarshal(nil *models.Namespace)" ∧
    (queryNamespace d1 svc1).2 = false ∧
    (queryNamespace d1 svc1).1.retHeader.retCode = -1 ∧
    (modifyNamespace d2 svc2).2 = false ∧
    (modifyNamespace d2 svc2).1.retCode = -1 :=
  ⟨rfl, rfl, rfl, rfl, rfl, rfl⟩

/-- C9: when the `:name` path parameter trims to the empty string, both
`delNamespace` and `sqlFingerprint` answer
`(-1, "input name is empty")` without invoking the underlying service,
so no deletion and no fingerprint query takes place. -/
theorem empty_name_rejected (nameParam : String)
    (svcD : String → Option String)
    (svcF : String → List (String × String) × List (String × String) × Option String)
    (h : trimSpace nameParam = "") :
    delNamespace nameParam svcD = (⟨-1, "input name is empty"⟩, false) ∧
    sqlFingerprint nameParam svcF = (⟨⟨-1, "input name is empty"⟩, [], []⟩, false) :=
  ⟨delNamespace_empty_name nameParam svcD h, sqlFingerprint_empty_name nameParam svcF h⟩

/-- C9, witness: a name parameter of spaces and a tab, against services
that would otherwise delete or answer. -/
theorem empty_name_rejected_witness :
    delNamespace " \t " (fun _ => some "boom") =
      (⟨-1, "input name is empty"⟩, false) ∧
    sqlFingerprint " \t " (fun _ => ([], [], some "boom")) =
      (⟨⟨-1, "input name is empty"⟩, [], []⟩, false) :=
  empty_name_rejected " \t " (fun _ => some "boom")
    (fun _ => ([], [], some "boom")) (by decide)

/-- C10: every handler's `ret_code` is either 0 or -1; it is 0 exactly
when the handler's input validation, request binding and delegated
service call all succeeded (for `queryNamespace` and `modifyNamespace`
this can never happen, since binding a nil pointer always fails, so the
iff's right side is unsatisfiable and their `ret_code` is always -1);
and whenever `ret_code` is 0 the `ret_message` is exactly "SUCC". -/
theorem retcode_invariant
    (d1 : Except String QueryReq) (svc1 : List String → List Namespace × Option String)
    (d2 : Except String Namespace) (svc2 : Namespace → Option String)
    (nm3 : String) (svc3 : String → Option String)
    (nm4 : String)
    (svc4 : String → List (String × String) × List (String × String) × Option String)
    (data5 : List (String × String)) (err5 : Option String) :
    (((queryNamespace d1 svc1).1.retHeader.retCode = 0 ∨
        (queryNamespace d1 svc1).1.retHeader.retCode = -1) ∧
      ((queryNamespace d1 svc1).1.retHeader.retCode = 0 ↔
        (∃ req, bindJSON "*main.QueryReq" none d1 = Except.ok req ∧
          (svc1 req.names).2 = none)) ∧
      ((queryNamespace d1 svc1).1.retHeader.retCode = 0 →
        (queryNamespace d1 svc1).1.retHeader.retMessage = "SUCC")) ∧
    (((modifyNamespace d2 svc2).1.retCode = 0 ∨
        (modifyNamespace d2 svc2).1.retCode = -1) ∧
      ((modifyNamespace d2 svc2).1.retCode = 0 ↔
        (∃ ns, bindJSON "*models.Namespace" none d2 = Except.ok ns ∧
          svc2 ns = none)) ∧
      ((modifyNamespace d2 svc2).1.retCode = 0 →
        (modifyNamespace d2 svc2).1.retMessage = "SUCC")) ∧
    (((delNamespace nm3 svc3).1.retCode = 0 ∨
        (delNamespace nm3 svc3).1.retCode = -1) ∧
      ((delNamespace nm3 svc3).1.retCode = 0 ↔
        (trimSpace nm3 ≠ "" ∧ svc3 (trimSpace nm3) = none)) ∧
      ((delNamespace nm3 svc3).1.retCode = 0 →
        (delNamespace nm3 svc3).1.retMessage = "SUCC")) ∧
    (((sqlFingerprint nm4 svc4).1.retHeader.retCode = 0 ∨
        (sqlFingerprint nm4 svc4).1.retHeader.retCode = -1) ∧
      ((sqlFingerprint nm4 svc4).1.retHeader.retCode = 0 ↔
        (trimSpace nm4 ≠ "" ∧ (svc4 (trimSpace nm4)).2.2 = none)) ∧
      ((sqlFingerprint nm4 svc4).1.retHeader.retCode = 0 →
        (sqlFingerprint nm4 svc4).1.retHeader.retMessage = "SUCC")) ∧
    (((proxyConfigFingerprint (data5, err5)).1.retHeader.retCode = 0 ∨
        (proxyConfigFingerprint (data5, err5)).1.retHeader.retCode = -1) ∧
      ((proxyConfigFingerprint (data5, err5)).1.retHeader.retCode = 0 ↔ err5 = none) ∧
      ((proxyConfigFingerprint (data5, err5)).1.retHeader.retCode = 0 →
        (proxyConfigFingerprint (data5, err5)).1.retHeader.retMessage = "SUCC")) := by
  refine ⟨⟨Or.inr rfl, ?_, ?_⟩, ⟨Or.inr rfl, ?_, ?_⟩, ?_, ?_, ?_⟩
  · constructor
    · intro hc
      exact absurd (show (-1 : Int) = 0 from hc) (by decide)
    · rintro ⟨req, hb, _⟩
      simp [bindJSON] at hb
  · intro hc
    exact absurd (show (-1 : Int) = 0 from hc) (by decide)
  · constructor
    · intro hc
      exact absurd (show (-1 : Int) = 0 from hc) (by decide)
    · rintro ⟨ns, hb, _⟩
      simp [bindJSON] at hb
  · intro hc
    exact absurd (show (-1 : Int) = 0 from hc) (by decide)
  · by_cases h3 : trimSpace nm3 = ""
    · rw [delNamespace_empty_name nm3 svc3 h3]
      refine ⟨Or.inr rfl, ?_, ?_⟩
      · constructor
        · intro hc
          exact absurd (show (-1 : Int) = 0 from hc) (by decide)
        · rintro ⟨hne, _⟩
          exact absurd h3 hne
      · intro hc
        exact absurd (show (-1 : Int) = 0 from hc) (by decide)
    · rcases he : svc3 (trimSpace nm3) with _ | e
      · rw [delNamespace_svc_ok nm3 svc3 h3 he]
        exact ⟨Or.inl rfl, ⟨fun _ => ⟨h3, rfl⟩, fun _ => rfl⟩, fun _ => rfl⟩
      · rw [delNamespace_svc_err nm3 svc3 e h3 he]
        refine ⟨Or.inr rfl, ?_, ?_⟩
        · constructor
          · intro hc
            exact absurd (show (-1 : Int) = 0 from hc) (by decide)
          · rintro ⟨_, hnone⟩
            exact Option.noConfusion hnone
        · intro hc
          exact absurd (show (-1 : Int) = 0 from hc) (by decide)
  · by_cases h4 : trimSpace nm4 = ""
    · rw [sqlFingerprint_empty_name nm4 svc4 h4]
      refine ⟨Or.inr rfl, ?_, ?_⟩
      · constructor
        · intro hc
          exact absurd (show (-1 : Int) = 0 from hc) (by decide)
        · rintro ⟨hne, _⟩
          exact absurd h4 hne
      · intro hc
        exact absurd (show (-1 : Int) = 0 from hc) (by decide)
    · rcases he : (svc4 (trimSpace nm4)).2.2 with _ | e
      · rw [sqlFingerprint_svc_ok nm4 svc4 h4 he]
        exact ⟨Or.inl rfl, ⟨fun _ => ⟨h4, rfl⟩, fun _ => rfl⟩, fun _ => rfl⟩
      · rw [sqlFingerprint_svc_err nm4 svc4 e h4 he]
        refine ⟨Or.inr rfl, ?_, ?_⟩
        · constructor
          · intro hc
            exact absurd (show (-1 : Int) = 0 from hc) (by decide)
          · rintro ⟨_, hnone⟩
            exact Option.noConfusion hnone
        · intro hc
          exact absurd (show (-1 : Int) = 0 from hc) (by decide)
  · rcases err5 with _ | e
    · rw [proxyConfigFingerprint_ok data5]
      exact ⟨Or.inl rfl, ⟨fun _ => rfl, fun _ => rfl⟩, fun _ => rfl⟩
    · rw [proxyConfigFingerprint_err data5 e]
      refine ⟨Or.inr rfl, ?_, ?_⟩
      · constructor
        · intro hc
          exact absurd (show (-1 : Int) = 0 from hc) (by decide)
        · intro hnone
          exact Option.noConfusion hnone
      · intro hc
        exact absurd (show (-1 : Int) = 0 from hc) (by decide)

/-- C10, witness: from the invariant instantiated at concrete requests
and succeeding services, the success branch of `delNamespace` answers
`ret_code 0` with `ret_message` "SUCC". -/
theorem retcode_invariant_witness :
    (delNamespace "shop" (fun _ => none)).1.retCode = 0 ∧
    (delNamespace "shop" (fun _ => none)).1.retMessage = "SUCC" := by
  have h := retcode_invariant (Except.ok ⟨[]⟩) (fun _ => ([], none))
    (Except.ok ⟨"shop", "cfg"⟩) (fun _ => none) "shop" (fun _ => none)
    "shop" (fun _ => ([], [], none)) [] none
  have hc := h.2.2.1.2.1.mpr ⟨by decide, rfl⟩
  exact ⟨hc, h.2.2.1.2.2 hc⟩

end Gaea
